import Mathlib

/-!
Shallow embedding of the AWS Image Builder resources of this repository:
the image resource (resourceAwsImageBuilderImage) and the container recipe
resource (resourceAwsImageBuilderContainerRecipe).  Terraform attribute
values are modelled by the inductive TfVal, flat configuration maps by
association lists, AWS SDK request and response structs by Lean structures
whose pointer-typed fields become Option, and the remote API, the waiter
and the tag helper by an environment record holding their responses.  Each
lifecycle callback (Create, Read, Update, Delete) becomes a pure function
from configuration, resource data and environment to an error result, the
updated resource data, and a trace of the actions it performed.
-/

namespace AwsProvider

/-- A Terraform attribute value (Go interface value in a flat config map). -/
inductive TfVal where
  | str (s : String)
  | bool (b : Bool)
  | int (n : Int)
  | list (xs : List TfVal)
  | map (kvs : List (String × TfVal))
  | null

/-- A flat configuration map (Go map from string to interface value). -/
def TfMap : Type := List (String × TfVal)

/-- Go type assertion tfMap[k].(string): the entry must exist and be a string. -/
def TfMap.getStr (m : TfMap) (k : String) : Option String :=
  match List.lookup k m with
  | some (TfVal.str s) => some s
  | _ => none

/-- Go type assertion tfMap[k].(bool). -/
def TfMap.getBool (m : TfMap) (k : String) : Option Bool :=
  match List.lookup k m with
  | some (TfVal.bool b) => some b
  | _ => none

/-- Go type assertion tfMap[k].(int). -/
def TfMap.getInt (m : TfMap) (k : String) : Option Int :=
  match List.lookup k m with
  | some (TfVal.int n) => some n
  | _ => none

/-- aws.StringValue: dereference a *string, nil becoming the empty string. -/
def stringValue (o : Option String) : String := o.getD ""

/-- Passing a *string to d.Set stores its dereferenced value (zero on nil). -/
def tfStringValue (o : Option String) : TfVal := TfVal.str (stringValue o)

/-- Passing a *bool to d.Set stores its dereferenced value (false on nil). -/
def tfBoolValue (o : Option Bool) : TfVal := TfVal.bool (o.getD false)

/-- A Go map value that may itself be a nil map. -/
def tfMapValue (o : Option TfMap) : TfVal :=
  match o with
  | some m => TfVal.map m
  | none => TfVal.null

/-- A Go slice value of flat maps that may itself be a nil slice. -/
def tfListValue (o : Option (List TfMap)) : TfVal :=
  match o with
  | some l => TfVal.list (l.map TfVal.map)
  | none => TfVal.null

/-- An AWS API error, identified by its error code as tfawserr inspects it. -/
structure AwsError where
  code : String
  message : String
deriving DecidableEq

/-- tfawserr.ErrCodeEquals: true when the error is non-nil and carries the code. -/
def errCodeEquals (err : Option AwsError) (code : String) : Bool :=
  match err with
  | some e => e.code == code
  | none => false

/-- imagebuilder.ErrCodeResourceNotFoundException. -/
def errCodeResourceNotFoundException : String := "ResourceNotFoundException"

/- ---------------------------------------------------------------------
   API structs used by the two resources (pointer fields become Option).
   --------------------------------------------------------------------- -/

/-- imagebuilder.TargetContainerRepository. -/
structure TargetContainerRepository where
  RepositoryName : Option String
  Service : Option String
deriving DecidableEq

/-- imagebuilder.ComponentConfiguration. -/
structure ComponentConfiguration where
  ComponentArn : Option String
deriving DecidableEq

/-- imagebuilder.ImageTestsConfiguration. -/
structure ImageTestsConfiguration where
  ImageTestsEnabled : Option Bool
  TimeoutMinutes : Option Int
deriving DecidableEq

/-- imagebuilder.Ami. -/
structure Ami where
  AccountId : Option String
  Description : Option String
  Image : Option String
  Name : Option String
  Region : Option String
deriving DecidableEq

/-- imagebuilder.Container. -/
structure Container where
  ImageUris : Option (List String)
  Region : Option String
deriving DecidableEq

/-- imagebuilder.OutputResources; the slice fields distinguish nil from empty. -/
structure OutputResources where
  Amis : Option (List (Option Ami))
  Containers : Option (List (Option Container))

/-- imagebuilder.DistributionConfiguration (only the field the code reads). -/
structure DistributionConfiguration where
  Arn : Option String
deriving DecidableEq

/-- imagebuilder.ImageRecipe (only the field the code reads). -/
structure ImageRecipe where
  Arn : Option String
deriving DecidableEq

/-- imagebuilder.InfrastructureConfiguration (only the field the code reads). -/
structure InfrastructureConfiguration where
  Arn : Option String
deriving DecidableEq

/-- imagebuilder.ContainerRecipe, with the fields the code reads. -/
structure ContainerRecipe where
  Arn : Option String
  Components : List (Option ComponentConfiguration)
  ContainerType : Option String
  DateCreated : Option String
  Description : Option String
  DockerfileTemplateData : Option String
  Name : Option String
  Encrypted : Option Bool
  KmsKeyId : Option String
  Owner : Option String
  ParentImage : Option String
  Platform : Option String
  Tags : List (String × String)
  Version : Option String
  TargetRepository : Option TargetContainerRepository
  WorkingDirectory : Option String

/-- imagebuilder.Image, with the fields the code reads. -/
structure Image where
  Arn : Option String
  ContainerRecipe : Option ContainerRecipe
  DateCreated : Option String
  DistributionConfiguration : Option DistributionConfiguration
  EnhancedImageMetadataEnabled : Option Bool
  ImageRecipe : Option ImageRecipe
  ImageTestsConfiguration : Option ImageTestsConfiguration
  InfrastructureConfiguration : Option InfrastructureConfiguration
  Name : Option String
  Platform : Option String
  OsVersion : Option String
  OutputResources : Option OutputResources
  Tags : List (String × String)
  Version : Option String

/- ---------------------------------------------------------------------
   Expand and flatten helpers.
   --------------------------------------------------------------------- -/

/-- expandImageBuilderTargetContainerRepository (container recipe file). -/
def expandImageBuilderTargetContainerRepository (tfMap : Option TfMap) :
    Option TargetContainerRepository :=
  match tfMap with
  | none => none
  | some m =>
    some
      { RepositoryName :=
          match m.getStr "repository_name" with
          | some v => if v == "" then none else some v
          | none => none
        Service :=
          match m.getStr "service" with
          | some v => if v == "" then none else some v
          | none => none }

/-- flattenImageBuilderTargetContainerRepository (container recipe file). -/
def flattenImageBuilderTargetContainerRepository
    (apiObject : Option TargetContainerRepository) : Option TfMap :=
  match apiObject with
  | none => none
  | some o =>
    some
      ((match o.RepositoryName with
        | some v => [("repository_name", TfVal.str v)]
        | none => [])
       ++
       (match o.Service with
        | some v => [("service", TfVal.str v)]
        | none => []))

/-- flattenImageBuilderAmi (image file): only non-nil fields become entries. -/
def flattenImageBuilderAmi (apiObject : Option Ami) : Option TfMap :=
  match apiObject with
  | none => none
  | some a =>
    some
      ((match a.AccountId with
        | some v => [("account_id", TfVal.str v)]
        | none => [])
       ++
       (match a.Description with
        | some v => [("description", TfVal.str v)]
        | none => [])
       ++
       (match a.Image with
        | some v => [("image", TfVal.str v)]
        | none => [])
       ++
       (match a.Name with
        | some v => [("name", TfVal.str v)]
        | none => [])
       ++
       (match a.Region with
        | some v => [("region", TfVal.str v)]
        | none => []))

/-- One iteration of the flatten-slice loops: a nil element is skipped
(continue), a non-nil element has its flattened map appended. -/
def flattenLoopStep {α β : Type} (f : Option α → Option β)
    (tfList : List β) (apiObject : Option α) : List β :=
  match apiObject with
  | none => tfList
  | some a => tfList ++ (f (some a)).toList

/-- flattenImageBuilderAmis (image file): nil for an empty slice, otherwise a
loop that skips nil elements and appends the flattened maps; the resulting
slice is nil (none) when nothing was appended. -/
def flattenImageBuilderAmis (apiObjects : List (Option Ami)) :
    Option (List TfMap) :=
  if apiObjects.length = 0 then none
  else
    let tfList := apiObjects.foldl (flattenLoopStep flattenImageBuilderAmi) []
    if tfList.isEmpty then none else some tfList

/-- Modelled from the spec: flattenStringSet is not among the provided source
files; per the spec it is a mechanical conversion of a list of strings into a
set-typed configuration value. -/
def flattenStringSet (xs : List String) : TfVal :=
  TfVal.list (xs.map TfVal.str)

/-- flattenImageBuilderContainer (image file). -/
def flattenImageBuilderContainer (apiObject : Option Container) : Option TfMap :=
  match apiObject with
  | none => none
  | some a =>
    some
      ((match a.ImageUris with
        | some v => [("image_uris", flattenStringSet v)]
        | none => [])
       ++
       (match a.Region with
        | some v => [("region", TfVal.str v)]
        | none => []))

/-- flattenImageBuilderContainers (image file), same shape as the Amis loop. -/
def flattenImageBuilderContainers (apiObjects : List (Option Container)) :
    Option (List TfMap) :=
  if apiObjects.length = 0 then none
  else
    let tfList :=
      apiObjects.foldl (flattenLoopStep flattenImageBuilderContainer) []
    if tfList.isEmpty then none else some tfList

/-- flattenImageBuilderOutputResources (image file). -/
def flattenImageBuilderOutputResources (apiObject : Option OutputResources) :
    Option TfMap :=
  match apiObject with
  | none => none
  | some o =>
    some
      ((match o.Amis with
        | some v => [("amis", tfListValue (flattenImageBuilderAmis v))]
        | none => [])
       ++
       (match o.Containers with
        | some v => [("containers", tfListValue (flattenImageBuilderContainers v))]
        | none => []))

/-- Modelled from the spec: flattenImageBuilderImageTestsConfiguration is not
among the provided source files; per the spec it is a mechanical field-by-field
unmarshalling of the ImageTestsConfiguration struct into a flat map. -/
def flattenImageBuilderImageTestsConfiguration
    (apiObject : Option ImageTestsConfiguration) : Option TfMap :=
  match apiObject with
  | none => none
  | some o =>
    some
      ((match o.ImageTestsEnabled with
        | some v => [("image_tests_enabled", TfVal.bool v)]
        | none => [])
       ++
       (match o.TimeoutMinutes with
        | some v => [("timeout_minutes", TfVal.int v)]
        | none => []))

/-- Modelled from the spec: expandImageBuilderImageTestConfiguration is not
among the provided source files; per the spec it is a mechanical field-by-field
marshalling of a flat map into the ImageTestsConfiguration struct. -/
def expandImageBuilderImageTestConfiguration (tfMap : TfMap) :
    ImageTestsConfiguration :=
  { ImageTestsEnabled := tfMap.getBool "image_tests_enabled"
    TimeoutMinutes := tfMap.getInt "timeout_minutes" }

/-- Modelled from the spec: expandImageBuilderComponentConfigurations is not
among the provided source files; per the spec it mechanically marshals each
flat component map (its component_arn entry) into a ComponentConfiguration. -/
def expandImageBuilderComponentConfigurations (tfList : List TfMap) :
    List ComponentConfiguration :=
  tfList.map (fun m =>
    { ComponentArn :=
        match m.getStr "component_arn" with
        | some v => if v == "" then none else some v
        | none => none })

/-- Modelled from the spec: flattenImageBuilderComponentConfiguration is not
among the provided source files; per the spec it mechanically unmarshals a
non-nil ComponentConfiguration into a flat map carrying its component ARN. -/
def flattenImageBuilderComponentConfiguration
    (apiObject : Option ComponentConfiguration) : Option TfMap :=
  match apiObject with
  | none => none
  | some a =>
    some
      (match a.ComponentArn with
       | some v => [("component_arn", TfVal.str v)]
       | none => [])

/-- Modelled from the spec: flattenImageBuilderComponentConfigurations is not
among the provided source files; per the spec it mechanically unmarshals each
non-nil ComponentConfiguration of the slice, in order. -/
def flattenImageBuilderComponentConfigurations
    (apiObjects : List (Option ComponentConfiguration)) : Option (List TfMap) :=
  if apiObjects.length = 0 then none
  else
    let tfList :=
      apiObjects.foldl
        (flattenLoopStep flattenImageBuilderComponentConfiguration) []
    if tfList.isEmpty then none else some tfList

/-- Modelled from the spec: the tag-diffing helper keyvaluetags is treated as
an opaque key-value reconciliation utility; its IgnoreAws step drops the
AWS-internal tag keys (the keys with the reserved aws prefix). -/
def ignoreAws (tags : List (String × String)) : List (String × String) :=
  tags.filter (fun kv => !(kv.1.startsWith "aws:"))

/-- Modelled from the spec: the IgnoreConfig step of the opaque tag helper
drops the tag keys listed in the provider-level ignore configuration. -/
def ignoreConfig (cfgKeys : List String) (tags : List (String × String)) :
    List (String × String) :=
  tags.filter (fun kv => !(cfgKeys.contains kv.1))

/- ---------------------------------------------------------------------
   Resource data, requests, environments and action traces.
   --------------------------------------------------------------------- -/

/-- The slice of schema.ResourceData the two resources consult: the stored ID,
whether the resource is newly created, the configured create timeout override
(none means the schema default applies), and the tag diff reported by
HasChange and GetChange. -/
structure ResourceData where
  id : String
  isNew : Bool
  timeoutCreate : Option Nat
  tagsChanged : Bool
  tagsOld : List (String × String)
  tagsNew : List (String × String)

/-- schema.DefaultTimeout(60 * time.Minute) of the image resource, in minutes. -/
def imageCreateDefaultTimeoutMinutes : Nat := 60

/-- d.Timeout(schema.TimeoutCreate) for the image resource: the configured
value, or the schema default of 60 minutes. -/
def imageCreateTimeout (d : ResourceData) : Nat :=
  d.timeoutCreate.getD imageCreateDefaultTimeoutMinutes

/-- imagebuilder.CreateImageInput. -/
structure CreateImageInput where
  ClientToken : Option String
  ContainerRecipeArn : Option String
  DistributionConfigurationArn : Option String
  EnhancedImageMetadataEnabled : Option Bool
  ImageRecipeArn : Option String
  ImageTestsConfiguration : Option ImageTestsConfiguration
  InfrastructureConfigurationArn : Option String
  Tags : Option (List (String × String))
deriving DecidableEq

/-- imagebuilder.CreateImageOutput. -/
structure CreateImageOutput where
  ImageBuildVersionArn : Option String
deriving DecidableEq

/-- imagebuilder.GetImageInput. -/
structure GetImageInput where
  ImageBuildVersionArn : Option String
deriving DecidableEq

/-- imagebuilder.GetImageOutput. -/
structure GetImageOutput where
  Image : Option Image

/-- imagebuilder.DeleteImageInput. -/
structure DeleteImageInput where
  ImageBuildVersionArn : Option String
deriving DecidableEq

/-- imagebuilder.CreateContainerRecipeInput. -/
structure CreateContainerRecipeInput where
  ClientToken : Option String
  Components : Option (List ComponentConfiguration)
  ContainerType : Option String
  Description : Option String
  DockerfileTemplateData : Option String
  Name : Option String
  ParentImage : Option String
  Tags : Option (List (String × String))
  SemanticVersion : Option String
  TargetRepository : Option TargetContainerRepository
  WorkingDirectory : Option String
deriving DecidableEq

/-- imagebuilder.CreateContainerRecipeOutput. -/
structure CreateContainerRecipeOutput where
  ContainerRecipeArn : Option String
deriving DecidableEq

/-- imagebuilder.GetContainerRecipeInput. -/
structure GetContainerRecipeInput where
  ContainerRecipeArn : Option String
deriving DecidableEq

/-- imagebuilder.GetContainerRecipeOutput. -/
structure GetContainerRecipeOutput where
  ContainerRecipe : Option ContainerRecipe

/-- imagebuilder.DeleteContainerRecipeInput. -/
structure DeleteContainerRecipeInput where
  ContainerRecipeArn : Option String
deriving DecidableEq

/-- The distinct error values the two files build with fmt.Errorf, each
carrying the wrapped API error where the Go code wraps one. -/
inductive GoError where
  | errCreatingImage (inner : AwsError)
  | errCreatingImageEmpty
  | errWaitingImageAvailable (id : String) (inner : AwsError)
  | errGettingImage (id : String) (inner : AwsError)
  | errGettingImageEmpty (id : String)
  | errUpdatingImageTags (id : String) (inner : AwsError)
  | errDeletingImage (id : String) (inner : AwsError)
  | errCreatingContainerRecipe (inner : AwsError)
  | errCreatingContainerRecipeEmpty
  | errGettingContainerRecipe (id : String) (inner : AwsError)
  | errGettingContainerRecipeEmpty (id : String)
  | errUpdatingContainerRecipeTags (id : String) (inner : AwsError)
  | errDeletingContainerRecipe (id : String) (inner : AwsError)
deriving DecidableEq

/-- An observable action of a lifecycle callback: an API call, the waiter
call, a d.SetId, or a d.Set of a schema attribute. -/
inductive Action where
  | callCreateImage (input : CreateImageInput)
  | callWaiterImageStatusAvailable (arn : String) (timeoutMinutes : Nat)
  | callGetImage (input : GetImageInput)
  | callDeleteImage (input : DeleteImageInput)
  | callUpdateTags (arn : String) (old new : List (String × String))
  | callCreateContainerRecipe (input : CreateContainerRecipeInput)
  | callGetContainerRecipe (input : GetContainerRecipeInput)
  | callDeleteContainerRecipe (input : DeleteContainerRecipeInput)
  | setId (id : String)
  | setAttr (key : String) (v : TfVal)

/-- Whether an action is an API call that mutates remote state. -/
def Action.isMutatingApiCall : Action → Bool
  | Action.callCreateImage _ => true
  | Action.callDeleteImage _ => true
  | Action.callUpdateTags _ _ _ => true
  | Action.callCreateContainerRecipe _ => true
  | Action.callDeleteContainerRecipe _ => true
  | _ => false

/-- Whether an action is the CreateContainerRecipe API call. -/
def Action.isCreateContainerRecipeCall : Action → Bool
  | Action.callCreateContainerRecipe _ => true
  | _ => false

/-- Whether an action sets the given schema attribute. -/
def Action.setsKey (a : Action) (key : String) : Bool :=
  match a with
  | Action.setAttr k _ => k == key
  | _ => false

/-- The environment of the image resource: the response of each remote call
the callbacks can issue, the fresh client token, and the provider ignore-tags
configuration. -/
structure ImageEnv where
  clientToken : String
  createImageResp : Option CreateImageOutput × Option AwsError
  waiterImageStatusAvailableErr : Option AwsError
  getImageResp : Option GetImageOutput × Option AwsError
  deleteImageErr : Option AwsError
  updateTagsErr : Option AwsError
  ignoreTagsConfig : List String

/-- The environment of the container recipe resource. -/
structure RecipeEnv where
  clientToken : String
  createContainerRecipeResp : Option CreateContainerRecipeOutput × Option AwsError
  getContainerRecipeResp : Option GetContainerRecipeOutput × Option AwsError
  deleteContainerRecipeErr : Option AwsError
  updateTagsErr : Option AwsError
  ignoreTagsConfig : List String

/-- The d.GetOk view of the image resource configuration: none means the
attribute is absent or zero, so GetOk reports false. -/
structure ImageResourceConfig where
  container_recipe_arn : Option String
  distribution_configuration_arn : Option String
  enhanced_image_metadata_enabled : Bool
  image_recipe_arn : Option String
  image_tests_configuration : List (Option TfMap)
  infrastructure_configuration_arn : Option String
  tags : Option (List (String × String))

/-- The d.GetOk view of the container recipe resource configuration. -/
structure ContainerRecipeResourceConfig where
  component : List TfMap
  container_type : Option String
  description : Option String
  dockerfile_template_data : Option String
  name : Option String
  parent_image : Option String
  tags : Option (List (String × String))
  semantic_version : Option String
  target_repository : List TfMap
  working_directory : Option String

/-- The CreateImageInput built at the top of resourceAwsImageBuilderImageCreate:
ClientToken and EnhancedImageMetadataEnabled are always set, every other field
only under its GetOk guard. -/
def createImageInputFromConfig (cfg : ImageResourceConfig)
    (clientToken : String) : CreateImageInput :=
  { ClientToken := some clientToken
    EnhancedImageMetadataEnabled := some cfg.enhanced_image_metadata_enabled
    ContainerRecipeArn := cfg.container_recipe_arn
    DistributionConfigurationArn := cfg.distribution_configuration_arn
    ImageRecipeArn := cfg.image_recipe_arn
    ImageTestsConfiguration :=
      match cfg.image_tests_configuration with
      | some m :: _ => some (expandImageBuilderImageTestConfiguration m)
      | _ => none
    InfrastructureConfigurationArn := cfg.infrastructure_configuration_arn
    Tags := cfg.tags.map ignoreAws }

/-- The CreateContainerRecipeInput built at the top of
resourceAwsImageBuilderContainerRecipeCreate: ClientToken is always set, every
other field only under its GetOk guard (target_repository expands its first
element; component expands the whole list when non-empty). -/
def createContainerRecipeInputFromConfig (cfg : ContainerRecipeResourceConfig)
    (clientToken : String) : CreateContainerRecipeInput :=
  { ClientToken := some clientToken
    Components :=
      match cfg.component with
      | [] => none
      | l => some (expandImageBuilderComponentConfigurations l)
    ContainerType := cfg.container_type
    Description := cfg.description
    DockerfileTemplateData := cfg.dockerfile_template_data
    Name := cfg.name
    ParentImage := cfg.parent_image
    Tags := cfg.tags.map ignoreAws
    SemanticVersion := cfg.semantic_version
    TargetRepository :=
      match cfg.target_repository with
      | m :: _ => expandImageBuilderTargetContainerRepository (some m)
      | [] => none
    WorkingDirectory := cfg.working_directory }

/- ---------------------------------------------------------------------
   Image resource lifecycle callbacks.
   --------------------------------------------------------------------- -/

/-- The d.Set calls of resourceAwsImageBuilderImageRead on a non-nil image,
as attribute-value pairs in source order.  The four nested-struct ARNs are
written only when their struct is non-nil; image_tests_configuration and
output_resources are written as a one-element flattened list when non-nil and
as nil otherwise. -/
def imageReadPairs (image : Image) (ignoreTagsConfig : List String) :
    List (String × TfVal) :=
  [("arn", tfStringValue image.Arn)]
  ++ (match image.ContainerRecipe with
      | some v => [("container_recipe_arn", tfStringValue v.Arn)]
      | none => [])
  ++ [("date_created", tfStringValue image.DateCreated)]
  ++ (match image.DistributionConfiguration with
      | some v => [("distribution_configuration_arn", tfStringValue v.Arn)]
      | none => [])
  ++ [("enhanced_image_metadata_enabled",
        tfBoolValue image.EnhancedImageMetadataEnabled)]
  ++ (match image.ImageRecipe with
      | some v => [("image_recipe_arn", tfStringValue v.Arn)]
      | none => [])
  ++ [("image_tests_configuration",
        match image.ImageTestsConfiguration with
        | some v =>
          TfVal.list
            [tfMapValue (flattenImageBuilderImageTestsConfiguration (some v))]
        | none => TfVal.null)]
  ++ (match image.InfrastructureConfiguration with
      | some v => [("infrastructure_configuration_arn", tfStringValue v.Arn)]
      | none => [])
  ++ [("name", tfStringValue image.Name),
      ("platform", tfStringValue image.Platform),
      ("os_version", tfStringValue image.OsVersion),
      ("output_resources",
        match image.OutputResources with
        | some v =>
          TfVal.list [tfMapValue (flattenImageBuilderOutputResources (some v))]
        | none => TfVal.null),
      ("tags",
        TfVal.map
          ((ignoreConfig ignoreTagsConfig (ignoreAws image.Tags)).map
            (fun kv => (kv.1, TfVal.str kv.2)))),
      ("version", tfStringValue image.Version)]

/-- resourceAwsImageBuilderImageRead. -/
def resourceAwsImageBuilderImageRead (d : ResourceData) (env : ImageEnv) :
    Option GoError × ResourceData × List Action :=
  let input : GetImageInput := { ImageBuildVersionArn := some d.id }
  if !d.isNew && errCodeEquals env.getImageResp.2 errCodeResourceNotFoundException then
    (none, { d with id := "" }, [Action.callGetImage input, Action.setId ""])
  else
    match env.getImageResp.2 with
    | some e => (some (GoError.errGettingImage d.id e), d, [Action.callGetImage input])
    | none =>
      match env.getImageResp.1 with
      | none => (some (GoError.errGettingImageEmpty d.id), d, [Action.callGetImage input])
      | some output =>
        match output.Image with
        | none => (some (GoError.errGettingImageEmpty d.id), d, [Action.callGetImage input])
        | some image =>
          (none, d,
            Action.callGetImage input ::
              (imageReadPairs image env.ignoreTagsConfig).map
                (fun kv => Action.setAttr kv.1 kv.2))

/-- resourceAwsImageBuilderImageCreate. -/
def resourceAwsImageBuilderImageCreate (cfg : ImageResourceConfig)
    (d : ResourceData) (env : ImageEnv) :
    Option GoError × ResourceData × List Action :=
  let input := createImageInputFromConfig cfg env.clientToken
  match env.createImageResp with
  | (_, some e) =>
    (some (GoError.errCreatingImage e), d, [Action.callCreateImage input])
  | (none, none) =>
    (some GoError.errCreatingImageEmpty, d, [Action.callCreateImage input])
  | (some output, none) =>
    let arn := stringValue output.ImageBuildVersionArn
    let d1 := { d with id := arn }
    match env.waiterImageStatusAvailableErr with
    | some e =>
      (some (GoError.errWaitingImageAvailable d1.id e), d1,
        [Action.callCreateImage input, Action.setId arn,
         Action.callWaiterImageStatusAvailable d1.id (imageCreateTimeout d1)])
    | none =>
      let r := resourceAwsImageBuilderImageRead d1 env
      (r.1, r.2.1,
        Action.callCreateImage input :: Action.setId arn ::
          Action.callWaiterImageStatusAvailable d1.id (imageCreateTimeout d1) ::
            r.2.2)

/-- resourceAwsImageBuilderImageUpdate. -/
def resourceAwsImageBuilderImageUpdate (d : ResourceData) (env : ImageEnv) :
    Option GoError × ResourceData × List Action :=
  if d.tagsChanged then
    match env.updateTagsErr with
    | some e =>
      (some (GoError.errUpdatingImageTags d.id e), d,
        [Action.callUpdateTags d.id d.tagsOld d.tagsNew])
    | none =>
      let r := resourceAwsImageBuilderImageRead d env
      (r.1, r.2.1, Action.callUpdateTags d.id d.tagsOld d.tagsNew :: r.2.2)
  else
    resourceAwsImageBuilderImageRead d env

/-- resourceAwsImageBuilderImageDelete. -/
def resourceAwsImageBuilderImageDelete (d : ResourceData) (env : ImageEnv) :
    Option GoError × ResourceData × List Action :=
  let input : DeleteImageInput := { ImageBuildVersionArn := some d.id }
  if errCodeEquals env.deleteImageErr errCodeResourceNotFoundException then
    (none, d, [Action.callDeleteImage input])
  else
    match env.deleteImageErr with
    | some e =>
      (some (GoError.errDeletingImage d.id e), d, [Action.callDeleteImage input])
    | none => (none, d, [Action.callDeleteImage input])

/- ---------------------------------------------------------------------
   Container recipe resource lifecycle callbacks.
   --------------------------------------------------------------------- -/

/-- The d.Set calls of resourceAwsImageBuilderContainerRecipeRead on a non-nil
container recipe, as attribute-value pairs in source order. -/
def containerRecipeReadPairs (containerRecipe : ContainerRecipe)
    (ignoreTagsConfig : List String) : List (String × TfVal) :=
  [("arn", tfStringValue containerRecipe.Arn),
   ("component",
     tfListValue
       (flattenImageBuilderComponentConfigurations containerRecipe.Components)),
   ("container_type", tfStringValue containerRecipe.ContainerType),
   ("date_created", tfStringValue containerRecipe.DateCreated),
   ("description", tfStringValue containerRecipe.Description),
   ("dockerfile_template_data",
     tfStringValue containerRecipe.DockerfileTemplateData),
   ("name", tfStringValue containerRecipe.Name),
   ("encrypted", tfBoolValue containerRecipe.Encrypted),
   ("kms_key_id", tfStringValue containerRecipe.KmsKeyId),
   ("owner", tfStringValue containerRecipe.Owner),
   ("parent_image", tfStringValue containerRecipe.ParentImage),
   ("platform", tfStringValue containerRecipe.Platform),
   ("tags",
     TfVal.map
       ((ignoreConfig ignoreTagsConfig (ignoreAws containerRecipe.Tags)).map
         (fun kv => (kv.1, TfVal.str kv.2)))),
   ("semantic_version", tfStringValue containerRecipe.Version),
   ("target_repository",
     TfVal.list
       [tfMapValue
         (flattenImageBuilderTargetContainerRepository
           containerRecipe.TargetRepository)]),
   ("working_directory", tfStringValue containerRecipe.WorkingDirectory)]

/-- resourceAwsImageBuilderContainerRecipeRead. -/
def resourceAwsImageBuilderContainerRecipeRead (d : ResourceData)
    (env : RecipeEnv) : Option GoError × ResourceData × List Action :=
  let input : GetContainerRecipeInput := { ContainerRecipeArn := some d.id }
  if !d.isNew &&
      errCodeEquals env.getContainerRecipeResp.2 errCodeResourceNotFoundException then
    (none, { d with id := "" },
      [Action.callGetContainerRecipe input, Action.setId ""])
  else
    match env.getContainerRecipeResp.2 with
    | some e =>
      (some (GoError.errGettingContainerRecipe d.id e), d,
        [Action.callGetContainerRecipe input])
    | none =>
      match env.getContainerRecipeResp.1 with
      | none =>
        (some (GoError.errGettingContainerRecipeEmpty d.id), d,
          [Action.callGetContainerRecipe input])
      | some output =>
        match output.ContainerRecipe with
        | none =>
          (some (GoError.errGettingContainerRecipeEmpty d.id), d,
            [Action.callGetContainerRecipe input])
        | some containerRecipe =>
          (none, d,
            Action.callGetContainerRecipe input ::
              (containerRecipeReadPairs containerRecipe env.ignoreTagsConfig).map
                (fun kv => Action.setAttr kv.1 kv.2))

/-- resourceAwsImageBuilderContainerRecipeCreate. -/
def resourceAwsImageBuilderContainerRecipeCreate
    (cfg : ContainerRecipeResourceConfig) (d : ResourceData) (env : RecipeEnv) :
    Option GoError × ResourceData × List Action :=
  let input := createContainerRecipeInputFromConfig cfg env.clientToken
  match env.createContainerRecipeResp with
  | (_, some e) =>
    (some (GoError.errCreatingContainerRecipe e), d,
      [Action.callCreateContainerRecipe input])
  | (none, none) =>
    (some GoError.errCreatingContainerRecipeEmpty, d,
      [Action.callCreateContainerRecipe input])
  | (some output, none) =>
    let arn := stringValue output.ContainerRecipeArn
    let d1 := { d with id := arn }
    let r := resourceAwsImageBuilderContainerRecipeRead d1 env
    (r.1, r.2.1,
      Action.callCreateContainerRecipe input :: Action.setId arn :: r.2.2)

/-- resourceAwsImageBuilderContainerRecipeUpdate. -/
def resourceAwsImageBuilderContainerRecipeUpdate (d : ResourceData)
    (env : RecipeEnv) : Option GoError × ResourceData × List Action :=
  if d.tagsChanged then
    match env.updateTagsErr with
    | some e =>
      (some (GoError.errUpdatingContainerRecipeTags d.id e), d,
        [Action.callUpdateTags d.id d.tagsOld d.tagsNew])
    | none =>
      let r := resourceAwsImageBuilderContainerRecipeRead d env
      (r.1, r.2.1, Action.callUpdateTags d.id d.tagsOld d.tagsNew :: r.2.2)
  else
    resourceAwsImageBuilderContainerRecipeRead d env

/-- resourceAwsImageBuilderContainerRecipeDelete. -/
def resourceAwsImageBuilderContainerRecipeDelete (d : ResourceData)
    (env : RecipeEnv) : Option GoError × ResourceData × List Action :=
  let input : DeleteContainerRecipeInput := { ContainerRecipeArn := some d.id }
  if errCodeEquals env.deleteContainerRecipeErr errCodeResourceNotFoundException then
    (none, d, [Action.callDeleteContainerRecipe input])
  else
    match env.deleteContainerRecipeErr with
    | some e =>
      (some (GoError.errDeletingContainerRecipe d.id e), d,
        [Action.callDeleteContainerRecipe input])
    | none => (none, d, [Action.callDeleteContainerRecipe input])

/- ---------------------------------------------------------------------
   Shared helper lemmas.
   --------------------------------------------------------------------- -/

/-- The append-and-skip-nil accumulation loop of the flatten slice helpers is
the filterMap of the element flattener. -/
theorem foldl_skipNone_eq_filterMap {α β : Type} (f : Option α → Option β)
    (hf : f none = none) :
    ∀ (l : List (Option α)) (acc : List β),
      l.foldl (flattenLoopStep f) acc = acc ++ l.filterMap f := by
  intro l
  induction l with
  | nil => intro acc; simp
  | cons x xs ih =>
    intro acc
    rw [List.foldl_cons, ih]
    cases x with
    | none => simp [List.filterMap_cons, hf, flattenLoopStep]
    | some a =>
      cases hx : f (some a) with
      | none => simp [List.filterMap_cons, hx, flattenLoopStep]
      | some b => simp [List.filterMap_cons, hx, flattenLoopStep]

/-- A flattener that is none exactly on none has an empty filterMap exactly
when the input holds no non-nil element. -/
theorem filterMap_eq_nil_iff_all_none {α β : Type} (f : Option α → Option β)
    (hnone : f none = none) (hsome : ∀ a, (f (some a)).isSome)
    (l : List (Option α)) :
    l.filterMap f = [] ↔ l.filterMap id = [] := by
  simp only [List.filterMap_eq_nil_iff]
  constructor
  · intro h o ho
    cases o with
    | none => rfl
    | some a =>
      have h1 := h (some a) ho
      have h2 := hsome a
      rw [h1] at h2
      simp at h2
  · intro h o ho
    have hoo := h o ho
    simp only [id] at hoo
    rw [hoo, hnone]

/- ---------------------------------------------------------------------
   Claim theorems.
   --------------------------------------------------------------------- -/

/-- C3. Expand and flatten for the target repository are mutually inverse: on
a flat configuration map carrying non-empty repository_name and service
strings the round trip is the identity, and both functions map a nil input to
nil. -/
theorem expand_flatten_target_repository_inverse (a b : String)
    (ha : a ≠ "") (hb : b ≠ "") :
    flattenImageBuilderTargetContainerRepository
      (expandImageBuilderTargetContainerRepository
        (some [("repository_name", TfVal.str a), ("service", TfVal.str b)]))
      = some [("repository_name", TfVal.str a), ("service", TfVal.str b)]
    ∧ expandImageBuilderTargetContainerRepository none = none
    ∧ flattenImageBuilderTargetContainerRepository none = none := by
  refine ⟨?_, rfl, rfl⟩
  simp [expandImageBuilderTargetContainerRepository,
    flattenImageBuilderTargetContainerRepository, TfMap.getStr, List.lookup,
    ha, hb]
  rfl

/-- Witness for C3 at a concrete repository name and service. -/
theorem expand_flatten_target_repository_inverse_witness :
    flattenImageBuilderTargetContainerRepository
      (expandImageBuilderTargetContainerRepository
        (some [("repository_name", TfVal.str "repo"), ("service", TfVal.str "ECR")]))
      = some [("repository_name", TfVal.str "repo"), ("service", TfVal.str "ECR")]
    ∧ expandImageBuilderTargetContainerRepository none = none
    ∧ flattenImageBuilderTargetContainerRepository none = none :=
  expand_flatten_target_repository_inverse "repo" "ECR"
    (by decide) (by decide)

/-- C9. flattenImageBuilderAmis and flattenImageBuilderContainers return nil
when the input slice is empty or holds only nil pointers, and otherwise return
the flattened non-nil elements in their original relative order; each element
map holds exactly the non-nil fields of the element. -/
theorem flatten_amis_containers_shape :
    (∀ amis : List (Option Ami), amis.filterMap id = [] →
        flattenImageBuilderAmis amis = none)
    ∧ (∀ amis : List (Option Ami), amis.filterMap id ≠ [] →
        flattenImageBuilderAmis amis =
          some (amis.filterMap flattenImageBuilderAmi))
    ∧ (∀ cs : List (Option Container), cs.filterMap id = [] →
        flattenImageBuilderContainers cs = none)
    ∧ (∀ cs : List (Option Container), cs.filterMap id ≠ [] →
        flattenImageBuilderContainers cs =
          some (cs.filterMap flattenImageBuilderContainer))
    ∧ (∀ a : Ami, ∀ m : TfMap, flattenImageBuilderAmi (some a) = some m →
        List.lookup "account_id" m = a.AccountId.map TfVal.str
        ∧ List.lookup "description" m = a.Description.map TfVal.str
        ∧ List.lookup "image" m = a.Image.map TfVal.str
        ∧ List.lookup "name" m = a.Name.map TfVal.str
        ∧ List.lookup "region" m = a.Region.map TfVal.str)
    ∧ (∀ c : Container, ∀ m : TfMap,
        flattenImageBuilderContainer (some c) = some m →
        List.lookup "image_uris" m = c.ImageUris.map flattenStringSet
        ∧ List.lookup "region" m = c.Region.map TfVal.str) := by
  have hAmiNone : flattenImageBuilderAmi none = none := rfl
  have hAmiSome : ∀ a : Ami, (flattenImageBuilderAmi (some a)).isSome := by
    intro a; rfl
  have hConNone : flattenImageBuilderContainer none = none := rfl
  have hConSome : ∀ c : Container,
      (flattenImageBuilderContainer (some c)).isSome := by
    intro c; rfl
  refine ⟨?_, ?_, ?_, ?_, ?_, ?_⟩
  · intro amis h
    by_cases hlen : amis.length = 0
    · simp [flattenImageBuilderAmis, hlen]
    · simp only [flattenImageBuilderAmis, if_neg hlen]
      rw [foldl_skipNone_eq_filterMap flattenImageBuilderAmi hAmiNone]
      have : amis.filterMap flattenImageBuilderAmi = [] :=
        (filterMap_eq_nil_iff_all_none flattenImageBuilderAmi hAmiNone
          hAmiSome amis).2 h
      simp [this]
  · intro amis h
    have hlen : amis.length ≠ 0 := by
      intro h0
      rw [List.length_eq_zero] at h0
      subst h0
      simp at h
    have hne : amis.filterMap flattenImageBuilderAmi ≠ [] := fun hc =>
      h ((filterMap_eq_nil_iff_all_none flattenImageBuilderAmi hAmiNone
        hAmiSome amis).1 hc)
    simp only [flattenImageBuilderAmis, if_neg hlen]
    rw [foldl_skipNone_eq_filterMap flattenImageBuilderAmi hAmiNone]
    simp only [List.nil_append]
    rw [if_neg (by simpa [List.isEmpty_iff] using hne)]
  · intro cs h
    by_cases hlen : cs.length = 0
    · simp [flattenImageBuilderContainers, hlen]
    · simp only [flattenImageBuilderContainers, if_neg hlen]
      rw [foldl_skipNone_eq_filterMap flattenImageBuilderContainer hConNone]
      have : cs.filterMap flattenImageBuilderContainer = [] :=
        (filterMap_eq_nil_iff_all_none flattenImageBuilderContainer hConNone
          hConSome cs).2 h
      simp [this]
  · intro cs h
    have hlen : cs.length ≠ 0 := by
      intro h0
      rw [List.length_eq_zero] at h0
      subst h0
      simp at h
    have hne : cs.filterMap flattenImageBuilderContainer ≠ [] := fun hc =>
      h ((filterMap_eq_nil_iff_all_none flattenImageBuilderContainer hConNone
        hConSome cs).1 hc)
    simp only [flattenImageBuilderContainers, if_neg hlen]
    rw [foldl_skipNone_eq_filterMap flattenImageBuilderContainer hConNone]
    simp only [List.nil_append]
    rw [if_neg (by simpa [List.isEmpty_iff] using hne)]
  · rintro ⟨a1, a2, a3, a4, a5⟩ m hm
    simp only [flattenImageBuilderAmi, Option.some.injEq] at hm
    subst hm
    cases a1 <;> cases a2 <;> cases a3 <;> cases a4 <;> cases a5 <;>
      simp [List.lookup]
  · rintro ⟨c1, c2⟩ m hm
    simp only [flattenImageBuilderContainer, Option.some.injEq] at hm
    subst hm
    cases c1 <;> cases c2 <;> simp [List.lookup]

/-- Witness for C9 at a concrete slice holding a nil pointer and one AMI. -/
theorem flatten_amis_containers_shape_witness :
    flattenImageBuilderAmis
      [none, some { AccountId := some "123", Description := none,
                    Image := none, Name := none, Region := some "us-east-1" }]
      = some [[("account_id", TfVal.str "123"),
               ("region", TfVal.str "us-east-1")]]
    ∧ flattenImageBuilderAmis [none, none] = none
    ∧ flattenImageBuilderContainers ([] : List (Option Container)) = none := by
  refine ⟨?_, ?_, ?_⟩
  · have h := flatten_amis_containers_shape.2.1
      [none, some { AccountId := some "123", Description := none,
                    Image := none, Name := none, Region := some "us-east-1" }]
      (by simp [List.filterMap_cons])
    rw [h]
    rfl
  · exact flatten_amis_containers_shape.1 [none, none]
      (by simp [List.filterMap_cons])
  · exact flatten_amis_containers_shape.1 [] rfl

/- Sample inputs used by the witness theorems. -/

/-- A sample resource data value with no configured timeout and no tag diff. -/
def dSample : ResourceData :=
  { id := "arn-1", isNew := false, timeoutCreate := none,
    tagsChanged := false, tagsOld := [], tagsNew := [] }

/-- A sample image environment where every remote call succeeds vacuously. -/
def imageEnvBase : ImageEnv :=
  { clientToken := "token-1"
    createImageResp := (none, none)
    waiterImageStatusAvailableErr := none
    getImageResp := (none, none)
    deleteImageErr := none
    updateTagsErr := none
    ignoreTagsConfig := [] }

/-- A sample container recipe environment. -/
def recipeEnvBase : RecipeEnv :=
  { clientToken := "token-1"
    createContainerRecipeResp := (none, none)
    getContainerRecipeResp := (none, none)
    deleteContainerRecipeErr := none
    updateTagsErr := none
    ignoreTagsConfig := [] }

/-- A ResourceNotFoundException error value. -/
def rnfeSample : AwsError :=
  { code := "ResourceNotFoundException", message := "gone" }

/-- A non-ResourceNotFoundException error value. -/
def otherErrSample : AwsError :=
  { code := "InternalException", message := "boom" }

/-- C7. Delete of either resource sends exactly one delete request whose ARN
is the stored resource ID, returns nil on ResourceNotFoundException, and wraps
any other API error into a non-nil error. -/
theorem delete_idempotent_on_missing (d : ResourceData)
    (ienv : ImageEnv) (renv : RecipeEnv) :
    ((resourceAwsImageBuilderImageDelete d ienv).2.2 =
      [Action.callDeleteImage { ImageBuildVersionArn := some d.id }])
    ∧ (errCodeEquals ienv.deleteImageErr errCodeResourceNotFoundException = true →
        (resourceAwsImageBuilderImageDelete d ienv).1 = none)
    ∧ (ienv.deleteImageErr = none →
        (resourceAwsImageBuilderImageDelete d ienv).1 = none)
    ∧ (∀ e : AwsError, ienv.deleteImageErr = some e →
        e.code ≠ errCodeResourceNotFoundException →
        (resourceAwsImageBuilderImageDelete d ienv).1 =
          some (GoError.errDeletingImage d.id e))
    ∧ ((resourceAwsImageBuilderContainerRecipeDelete d renv).2.2 =
      [Action.callDeleteContainerRecipe { ContainerRecipeArn := some d.id }])
    ∧ (errCodeEquals renv.deleteContainerRecipeErr
          errCodeResourceNotFoundException = true →
        (resourceAwsImageBuilderContainerRecipeDelete d renv).1 = none)
    ∧ (renv.deleteContainerRecipeErr = none →
        (resourceAwsImageBuilderContainerRecipeDelete d renv).1 = none)
    ∧ (∀ e : AwsError, renv.deleteContainerRecipeErr = some e →
        e.code ≠ errCodeResourceNotFoundException →
        (resourceAwsImageBuilderContainerRecipeDelete d renv).1 =
          some (GoError.errDeletingContainerRecipe d.id e)) := by
  refine ⟨?_, ?_, ?_, ?_, ?_, ?_, ?_, ?_⟩
  · cases h : ienv.deleteImageErr with
    | none => simp [resourceAwsImageBuilderImageDelete, h, errCodeEquals]
    | some e =>
      by_cases hc : e.code = errCodeResourceNotFoundException <;>
        simp [resourceAwsImageBuilderImageDelete, h, errCodeEquals, hc]
  · intro h
    simp [resourceAwsImageBuilderImageDelete, h]
  · intro h
    simp [resourceAwsImageBuilderImageDelete, h, errCodeEquals]
  · intro e he hc
    simp [resourceAwsImageBuilderImageDelete, he, errCodeEquals, hc]
  · cases h : renv.deleteContainerRecipeErr with
    | none =>
      simp [resourceAwsImageBuilderContainerRecipeDelete, h, errCodeEquals]
    | some e =>
      by_cases hc : e.code = errCodeResourceNotFoundException <;>
        simp [resourceAwsImageBuilderContainerRecipeDelete, h, errCodeEquals, hc]
  · intro h
    simp [resourceAwsImageBuilderContainerRecipeDelete, h]
  · intro h
    simp [resourceAwsImageBuilderContainerRecipeDelete, h, errCodeEquals]
  · intro e he hc
    simp [resourceAwsImageBuilderContainerRecipeDelete, he, errCodeEquals, hc]

/-- Witness for C7: the image delete swallows a not-found error, the recipe
delete wraps an internal error. -/
theorem delete_idempotent_on_missing_witness :
    (resourceAwsImageBuilderImageDelete dSample
      { imageEnvBase with deleteImageErr := some rnfeSample }).1 = none
    ∧ (resourceAwsImageBuilderContainerRecipeDelete dSample
        { recipeEnvBase with deleteContainerRecipeErr := some otherErrSample }).1
      = some (GoError.errDeletingContainerRecipe "arn-1" otherErrSample) :=
  ⟨(delete_idempotent_on_missing dSample
      { imageEnvBase with deleteImageErr := some rnfeSample }
      recipeEnvBase).2.1 (by decide),
   (delete_idempotent_on_missing dSample imageEnvBase
      { recipeEnvBase with deleteContainerRecipeErr := some otherErrSample
      }).2.2.2.2.2.2.2 otherErrSample rfl (by decide)⟩

/-- C8. Read of either resource on ResourceNotFoundException: when the
resource is not newly created the ID is cleared to the empty string and Read
returns nil; when newly created Read returns the wrapped error and the ID is
unchanged. -/
theorem read_not_found_removes_or_errors (d : ResourceData)
    (ienv : ImageEnv) (renv : RecipeEnv) (e e2 : AwsError)
    (hi : ienv.getImageResp.2 = some e)
    (he : e.code = errCodeResourceNotFoundException)
    (hr : renv.getContainerRecipeResp.2 = some e2)
    (he2 : e2.code = errCodeResourceNotFoundException) :
    (d.isNew = false →
      (resourceAwsImageBuilderImageRead d ienv).1 = none
      ∧ (resourceAwsImageBuilderImageRead d ienv).2.1.id = ""
      ∧ (resourceAwsImageBuilderContainerRecipeRead d renv).1 = none
      ∧ (resourceAwsImageBuilderContainerRecipeRead d renv).2.1.id = "")
    ∧ (d.isNew = true →
      (resourceAwsImageBuilderImageRead d ienv).1 =
        some (GoError.errGettingImage d.id e)
      ∧ (resourceAwsImageBuilderImageRead d ienv).2.1.id = d.id
      ∧ (resourceAwsImageBuilderContainerRecipeRead d renv).1 =
        some (GoError.errGettingContainerRecipe d.id e2)
      ∧ (resourceAwsImageBuilderContainerRecipeRead d renv).2.1.id = d.id) := by
  constructor
  · intro hnew
    refine ⟨?_, ?_, ?_, ?_⟩ <;>
      simp [resourceAwsImageBuilderImageRead,
        resourceAwsImageBuilderContainerRecipeRead, hnew, hi, hr, he, he2,
        errCodeEquals]
  · intro hnew
    refine ⟨?_, ?_, ?_, ?_⟩ <;>
      simp [resourceAwsImageBuilderImageRead,
        resourceAwsImageBuilderContainerRecipeRead, hnew, hi, hr,
        errCodeEquals]

/-- Witness for C8 at a not-new resource: both Reads clear the ID and return
nil on a not-found error. -/
theorem read_not_found_removes_or_errors_witness :
    (resourceAwsImageBuilderImageRead dSample
      { imageEnvBase with getImageResp := (none, some rnfeSample) }).1 = none
    ∧ (resourceAwsImageBuilderImageRead dSample
        { imageEnvBase with getImageResp := (none, some rnfeSample) }).2.1.id = ""
    ∧ (resourceAwsImageBuilderContainerRecipeRead dSample
        { recipeEnvBase with getContainerRecipeResp := (none, some rnfeSample) }).1
      = none
    ∧ (resourceAwsImageBuilderContainerRecipeRead dSample
        { recipeEnvBase with getContainerRecipeResp := (none, some rnfeSample)
        }).2.1.id = "" :=
  read_not_found_removes_or_errors dSample
    { imageEnvBase with getImageResp := (none, some rnfeSample) }
    { recipeEnvBase with getContainerRecipeResp := (none, some rnfeSample) }
    rnfeSample rnfeSample rfl rfl rfl rfl |>.1 rfl

/-- Every trace of the image Read callback starts with the GetImage call on
the stored ID. -/
theorem imageRead_trace_head (d : ResourceData) (env : ImageEnv) :
    ∃ rest : List Action, (resourceAwsImageBuilderImageRead d env).2.2 =
      Action.callGetImage { ImageBuildVersionArn := some d.id } :: rest := by
  unfold resourceAwsImageBuilderImageRead
  split
  · exact ⟨_, rfl⟩
  · split
    · exact ⟨_, rfl⟩
    · split
      · exact ⟨_, rfl⟩
      · split
        · exact ⟨_, rfl⟩
        · exact ⟨_, rfl⟩

/-- The image Read callback issues no mutating API call. -/
theorem imageRead_no_mutating_call (d : ResourceData) (env : ImageEnv) :
    ((resourceAwsImageBuilderImageRead d env).2.2).filter
      Action.isMutatingApiCall = [] := by
  rw [List.filter_eq_nil_iff]
  intro a ha
  unfold resourceAwsImageBuilderImageRead at ha
  split at ha
  · simp only [List.mem_cons, List.mem_singleton] at ha
    rcases ha with h | h | h
    · subst h; simp [Action.isMutatingApiCall]
    · subst h; simp [Action.isMutatingApiCall]
    · simp at h
  · split at ha
    · simp only [List.mem_singleton] at ha
      subst ha; simp [Action.isMutatingApiCall]
    · split at ha
      · simp only [List.mem_singleton] at ha
        subst ha; simp [Action.isMutatingApiCall]
      · split at ha
        · simp only [List.mem_singleton] at ha
          subst ha; simp [Action.isMutatingApiCall]
        · simp only [List.mem_cons, List.mem_map] at ha
          rcases ha with h | ⟨kv, _, h⟩
          · subst h; simp [Action.isMutatingApiCall]
          · subst h; simp [Action.isMutatingApiCall]

/-- The container recipe Read callback issues no mutating API call. -/
theorem containerRecipeRead_no_mutating_call (d : ResourceData)
    (env : RecipeEnv) :
    ((resourceAwsImageBuilderContainerRecipeRead d env).2.2).filter
      Action.isMutatingApiCall = [] := by
  rw [List.filter_eq_nil_iff]
  intro a ha
  unfold resourceAwsImageBuilderContainerRecipeRead at ha
  split at ha
  · simp only [List.mem_cons, List.mem_singleton] at ha
    rcases ha with h | h | h
    · subst h; simp [Action.isMutatingApiCall]
    · subst h; simp [Action.isMutatingApiCall]
    · simp at h
  · split at ha
    · simp only [List.mem_singleton] at ha
      subst ha; simp [Action.isMutatingApiCall]
    · split at ha
      · simp only [List.mem_singleton] at ha
        subst ha; simp [Action.isMutatingApiCall]
      · split at ha
        · simp only [List.mem_singleton] at ha
          subst ha; simp [Action.isMutatingApiCall]
        · simp only [List.mem_cons, List.mem_map] at ha
          rcases ha with h | ⟨kv, _, h⟩
          · subst h; simp [Action.isMutatingApiCall]
          · subst h; simp [Action.isMutatingApiCall]

/-- C2. For every Create of either resource, an API error or a nil output
yields a non-nil error with the resource data unchanged and no SetId call;
the ID is set to the returned ARN exactly in the successful non-nil case. -/
theorem create_id_only_on_success (icfg : ImageResourceConfig)
    (rcfg : ContainerRecipeResourceConfig) (d : ResourceData)
    (ienv : ImageEnv) (renv : RecipeEnv) :
    (∀ e : AwsError, ienv.createImageResp.2 = some e →
      (resourceAwsImageBuilderImageCreate icfg d ienv).1 =
        some (GoError.errCreatingImage e)
      ∧ (resourceAwsImageBuilderImageCreate icfg d ienv).2.1 = d
      ∧ ∀ s : String,
          Action.setId s ∉ (resourceAwsImageBuilderImageCreate icfg d ienv).2.2)
    ∧ (ienv.createImageResp = (none, none) →
      (resourceAwsImageBuilderImageCreate icfg d ienv).1 =
        some GoError.errCreatingImageEmpty
      ∧ (resourceAwsImageBuilderImageCreate icfg d ienv).2.1 = d
      ∧ ∀ s : String,
          Action.setId s ∉ (resourceAwsImageBuilderImageCreate icfg d ienv).2.2)
    ∧ (∀ output : CreateImageOutput,
        ienv.createImageResp = (some output, none) →
        Action.setId (stringValue output.ImageBuildVersionArn) ∈
          (resourceAwsImageBuilderImageCreate icfg d ienv).2.2)
    ∧ (∀ e : AwsError, renv.createContainerRecipeResp.2 = some e →
      (resourceAwsImageBuilderContainerRecipeCreate rcfg d renv).1 =
        some (GoError.errCreatingContainerRecipe e)
      ∧ (resourceAwsImageBuilderContainerRecipeCreate rcfg d renv).2.1 = d
      ∧ ∀ s : String, Action.setId s ∉
          (resourceAwsImageBuilderContainerRecipeCreate rcfg d renv).2.2)
    ∧ (renv.createContainerRecipeResp = (none, none) →
      (resourceAwsImageBuilderContainerRecipeCreate rcfg d renv).1 =
        some GoError.errCreatingContainerRecipeEmpty
      ∧ (resourceAwsImageBuilderContainerRecipeCreate rcfg d renv).2.1 = d
      ∧ ∀ s : String, Action.setId s ∉
          (resourceAwsImageBuilderContainerRecipeCreate rcfg d renv).2.2)
    ∧ (∀ output : CreateContainerRecipeOutput,
        renv.createContainerRecipeResp = (some output, none) →
        Action.setId (stringValue output.ContainerRecipeArn) ∈
          (resourceAwsImageBuilderContainerRecipeCreate rcfg d renv).2.2) := by
  refine ⟨?_, ?_, ?_, ?_, ?_, ?_⟩
  · intro e he
    rcases hresp : ienv.createImageResp with ⟨o, er⟩
    rw [hresp] at he
    simp only at he
    subst he
    cases o <;>
      simp [resourceAwsImageBuilderImageCreate, hresp]
  · intro hresp
    simp [resourceAwsImageBuilderImageCreate, hresp]
  · intro output hresp
    cases hw : ienv.waiterImageStatusAvailableErr with
    | some e => simp [resourceAwsImageBuilderImageCreate, hresp, hw]
    | none => simp [resourceAwsImageBuilderImageCreate, hresp, hw]
  · intro e he
    rcases hresp : renv.createContainerRecipeResp with ⟨o, er⟩
    rw [hresp] at he
    simp only at he
    subst he
    cases o <;>
      simp [resourceAwsImageBuilderContainerRecipeCreate, hresp]
  · intro hresp
    simp [resourceAwsImageBuilderContainerRecipeCreate, hresp]
  · intro output hresp
    simp [resourceAwsImageBuilderContainerRecipeCreate, hresp]

/-- Witness for C2: a failing CreateImage leaves the sample data unchanged, a
successful CreateContainerRecipe sets the returned ARN. -/
theorem create_id_only_on_success_witness :
    ((resourceAwsImageBuilderImageCreate
        { container_recipe_arn := none, distribution_configuration_arn := none,
          enhanced_image_metadata_enabled := true, image_recipe_arn := none,
          image_tests_configuration := [],
          infrastructure_configuration_arn := none, tags := none }
        dSample
        { imageEnvBase with createImageResp := (none, some otherErrSample) }).1 =
      some (GoError.errCreatingImage otherErrSample))
    ∧ Action.setId "arn-new" ∈
        (resourceAwsImageBuilderContainerRecipeCreate
          { component := [], container_type := none, description := none,
            dockerfile_template_data := none, name := none,
            parent_image := none, tags := none, semantic_version := none,
            target_repository := [], working_directory := none }
          dSample
          { recipeEnvBase with createContainerRecipeResp :=
              (some { ContainerRecipeArn := some "arn-new" }, none) }).2.2 :=
  ⟨((create_id_only_on_success
      { container_recipe_arn := none, distribution_configuration_arn := none,
        enhanced_image_metadata_enabled := true, image_recipe_arn := none,
        image_tests_configuration := [],
        infrastructure_configuration_arn := none, tags := none }
      { component := [], container_type := none, description := none,
        dockerfile_template_data := none, name := none,
        parent_image := none, tags := none, semantic_version := none,
        target_repository := [], working_directory := none }
      dSample
      { imageEnvBase with createImageResp := (none, some otherErrSample) }
      recipeEnvBase).1 otherErrSample rfl).1,
   (create_id_only_on_success
      { container_recipe_arn := none, distribution_configuration_arn := none,
        enhanced_image_metadata_enabled := true, image_recipe_arn := none,
        image_tests_configuration := [],
        infrastructure_configuration_arn := none, tags := none }
      { component := [], container_type := none, description := none,
        dockerfile_template_data := none, name := none,
        parent_image := none, tags := none, semantic_version := none,
        target_repository := [], working_directory := none }
      dSample imageEnvBase
      { recipeEnvBase with createContainerRecipeResp :=
          (some { ContainerRecipeArn := some "arn-new" }, none) }).2.2.2.2.2
      { ContainerRecipeArn := some "arn-new" } rfl⟩

/-- C5. Update of either resource issues the tag reconciliation helper call
exactly when the tags attribute changed, with the old and new tag values, and
issues no other mutating API call; a helper error is wrapped and returned with
no further action, and otherwise Update continues into Read. -/
theorem update_only_reconciles_tags (d : ResourceData) (ienv : ImageEnv)
    (renv : RecipeEnv) :
    ((resourceAwsImageBuilderImageUpdate d ienv).2.2.filter
        Action.isMutatingApiCall =
      if d.tagsChanged then [Action.callUpdateTags d.id d.tagsOld d.tagsNew]
      else [])
    ∧ (∀ e : AwsError, d.tagsChanged = true → ienv.updateTagsErr = some e →
        (resourceAwsImageBuilderImageUpdate d ienv).1 =
          some (GoError.errUpdatingImageTags d.id e)
        ∧ (resourceAwsImageBuilderImageUpdate d ienv).2.2 =
            [Action.callUpdateTags d.id d.tagsOld d.tagsNew])
    ∧ (d.tagsChanged = true → ienv.updateTagsErr = none →
        resourceAwsImageBuilderImageUpdate d ienv =
          ((resourceAwsImageBuilderImageRead d ienv).1,
           (resourceAwsImageBuilderImageRead d ienv).2.1,
           Action.callUpdateTags d.id d.tagsOld d.tagsNew ::
             (resourceAwsImageBuilderImageRead d ienv).2.2))
    ∧ (d.tagsChanged = false →
        resourceAwsImageBuilderImageUpdate d ienv =
          resourceAwsImageBuilderImageRead d ienv)
    ∧ ((resourceAwsImageBuilderContainerRecipeUpdate d renv).2.2.filter
        Action.isMutatingApiCall =
      if d.tagsChanged then [Action.callUpdateTags d.id d.tagsOld d.tagsNew]
      else [])
    ∧ (∀ e : AwsError, d.tagsChanged = true → renv.updateTagsErr = some e →
        (resourceAwsImageBuilderContainerRecipeUpdate d renv).1 =
          some (GoError.errUpdatingContainerRecipeTags d.id e)
        ∧ (resourceAwsImageBuilderContainerRecipeUpdate d renv).2.2 =
            [Action.callUpdateTags d.id d.tagsOld d.tagsNew])
    ∧ (d.tagsChanged = true → renv.updateTagsErr = none →
        resourceAwsImageBuilderContainerRecipeUpdate d renv =
          ((resourceAwsImageBuilderContainerRecipeRead d renv).1,
           (resourceAwsImageBuilderContainerRecipeRead d renv).2.1,
           Action.callUpdateTags d.id d.tagsOld d.tagsNew ::
             (resourceAwsImageBuilderContainerRecipeRead d renv).2.2))
    ∧ (d.tagsChanged = false →
        resourceAwsImageBuilderContainerRecipeUpdate d renv =
          resourceAwsImageBuilderContainerRecipeRead d renv) := by
  refine ⟨?_, ?_, ?_, ?_, ?_, ?_, ?_, ?_⟩
  · cases hch : d.tagsChanged with
    | false =>
      simp [resourceAwsImageBuilderImageUpdate, hch,
        imageRead_no_mutating_call]
    | true =>
      cases hu : ienv.updateTagsErr with
      | some e =>
        simp [resourceAwsImageBuilderImageUpdate, hch, hu,
          Action.isMutatingApiCall]
      | none =>
        simp [resourceAwsImageBuilderImageUpdate, hch, hu,
          List.filter_cons, Action.isMutatingApiCall,
          imageRead_no_mutating_call]
  · intro e hch hu
    simp [resourceAwsImageBuilderImageUpdate, hch, hu]
  · intro hch hu
    simp [resourceAwsImageBuilderImageUpdate, hch, hu]
  · intro hch
    simp [resourceAwsImageBuilderImageUpdate, hch]
  · cases hch : d.tagsChanged with
    | false =>
      simp [resourceAwsImageBuilderContainerRecipeUpdate, hch,
        containerRecipeRead_no_mutating_call]
    | true =>
      cases hu : renv.updateTagsErr with
      | some e =>
        simp [resourceAwsImageBuilderContainerRecipeUpdate, hch, hu,
          Action.isMutatingApiCall]
      | none =>
        simp [resourceAwsImageBuilderContainerRecipeUpdate, hch, hu,
          List.filter_cons, Action.isMutatingApiCall,
          containerRecipeRead_no_mutating_call]
  · intro e hch hu
    simp [resourceAwsImageBuilderContainerRecipeUpdate, hch, hu]
  · intro hch hu
    simp [resourceAwsImageBuilderContainerRecipeUpdate, hch, hu]
  · intro hch
    simp [resourceAwsImageBuilderContainerRecipeUpdate, hch]

/-- Witness for C5: with a changed tags attribute and a failing helper, the
image Update performs exactly the reconciliation call and returns its wrapped
error. -/
theorem update_only_reconciles_tags_witness :
    ((resourceAwsImageBuilderImageUpdate
        { dSample with tagsChanged := true, tagsNew := [("k", "v")] }
        { imageEnvBase with updateTagsErr := some otherErrSample }).1 =
      some (GoError.errUpdatingImageTags "arn-1" otherErrSample))
    ∧ ((resourceAwsImageBuilderImageUpdate
        { dSample with tagsChanged := true, tagsNew := [("k", "v")] }
        { imageEnvBase with updateTagsErr := some otherErrSample }).2.2 =
      [Action.callUpdateTags "arn-1" [] [("k", "v")]]) :=
  (update_only_reconciles_tags
    { dSample with tagsChanged := true, tagsNew := [("k", "v")] }
    { imageEnvBase with updateTagsErr := some otherErrSample }
    recipeEnvBase).2.1 otherErrSample rfl rfl

/-- C1. When CreateImage succeeds with a non-nil output, the image Create
first sets the resource ID to the returned ImageBuildVersionArn, then blocks
on the waiter with that ID and the create timeout (default 60 minutes); a
waiter error is returned as a non-nil error with the ID still set and without
reaching Read, and a waiter success continues into Read. -/
theorem image_create_sets_id_then_waits (cfg : ImageResourceConfig)
    (d : ResourceData) (env : ImageEnv) (output : CreateImageOutput)
    (h : env.createImageResp = (some output, none)) :
    ((resourceAwsImageBuilderImageCreate cfg d env).2.2.take 3 =
      [Action.callCreateImage (createImageInputFromConfig cfg env.clientToken),
       Action.setId (stringValue output.ImageBuildVersionArn),
       Action.callWaiterImageStatusAvailable
         (stringValue output.ImageBuildVersionArn) (imageCreateTimeout d)])
    ∧ (∀ e : AwsError, env.waiterImageStatusAvailableErr = some e →
        (resourceAwsImageBuilderImageCreate cfg d env).1 =
          some (GoError.errWaitingImageAvailable
            (stringValue output.ImageBuildVersionArn) e)
        ∧ (resourceAwsImageBuilderImageCreate cfg d env).2.1.id =
            stringValue output.ImageBuildVersionArn
        ∧ ∀ i : GetImageInput,
            Action.callGetImage i ∉
              (resourceAwsImageBuilderImageCreate cfg d env).2.2)
    ∧ (env.waiterImageStatusAvailableErr = none →
        Action.callGetImage
          { ImageBuildVersionArn :=
              some (stringValue output.ImageBuildVersionArn) } ∈
          (resourceAwsImageBuilderImageCreate cfg d env).2.2
        ∧ (resourceAwsImageBuilderImageCreate cfg d env).1 =
            (resourceAwsImageBuilderImageRead
              { d with id := stringValue output.ImageBuildVersionArn } env).1)
    ∧ imageCreateTimeout { d with timeoutCreate := none } =
        imageCreateDefaultTimeoutMinutes
    ∧ imageCreateDefaultTimeoutMinutes = 60 := by
  refine ⟨?_, ?_, ?_, rfl, rfl⟩
  · cases hw : env.waiterImageStatusAvailableErr with
    | some e => simp [resourceAwsImageBuilderImageCreate, h, hw, imageCreateTimeout]
    | none => simp [resourceAwsImageBuilderImageCreate, h, hw, imageCreateTimeout]
  · intro e hw
    refine ⟨?_, ?_, ?_⟩ <;>
      simp [resourceAwsImageBuilderImageCreate, h, hw]
  · intro hw
    constructor
    · obtain ⟨rest, hrest⟩ := imageRead_trace_head
        { d with id := stringValue output.ImageBuildVersionArn } env
      simp only [resourceAwsImageBuilderImageCreate, h, hw]
      simp [hrest]
    · simp [resourceAwsImageBuilderImageCreate, h, hw]

/-- Witness for C1: the sample create output with a failing waiter returns
the wrapped waiter error with the ID set to the returned ARN. -/
theorem image_create_sets_id_then_waits_witness :
    ((resourceAwsImageBuilderImageCreate
        { container_recipe_arn := none, distribution_configuration_arn := none,
          enhanced_image_metadata_enabled := true, image_recipe_arn := none,
          image_tests_configuration := [],
          infrastructure_configuration_arn := some "arn-infra", tags := none }
        dSample
        { imageEnvBase with
            createImageResp := (some { ImageBuildVersionArn := some "arn-img" }, none),
            waiterImageStatusAvailableErr := some otherErrSample }).1 =
      some (GoError.errWaitingImageAvailable "arn-img" otherErrSample))
    ∧ ((resourceAwsImageBuilderImageCreate
        { container_recipe_arn := none, distribution_configuration_arn := none,
          enhanced_image_metadata_enabled := true, image_recipe_arn := none,
          image_tests_configuration := [],
          infrastructure_configuration_arn := some "arn-infra", tags := none }
        dSample
        { imageEnvBase with
            createImageResp := (some { ImageBuildVersionArn := some "arn-img" }, none),
            waiterImageStatusAvailableErr := some otherErrSample }).2.1.id =
      "arn-img") := by
  have h := (image_create_sets_id_then_waits
    { container_recipe_arn := none, distribution_configuration_arn := none,
      enhanced_image_metadata_enabled := true, image_recipe_arn := none,
      image_tests_configuration := [],
      infrastructure_configuration_arn := some "arn-infra", tags := none }
    dSample
    { imageEnvBase with
        createImageResp := (some { ImageBuildVersionArn := some "arn-img" }, none),
        waiterImageStatusAvailableErr := some otherErrSample }
    { ImageBuildVersionArn := some "arn-img" } rfl).2.1 otherErrSample rfl
  exact ⟨h.1, h.2.1⟩

/-- The container recipe Read callback never issues a CreateContainerRecipe
call. -/
theorem containerRecipeRead_no_create_call (d : ResourceData)
    (env : RecipeEnv) :
    ((resourceAwsImageBuilderContainerRecipeRead d env).2.2).filter
      Action.isCreateContainerRecipeCall = [] := by
  rw [List.filter_eq_nil_iff]
  intro a ha
  unfold resourceAwsImageBuilderContainerRecipeRead at ha
  split at ha
  · simp only [List.mem_cons, List.mem_singleton] at ha
    rcases ha with h | h | h
    · subst h; simp [Action.isCreateContainerRecipeCall]
    · subst h; simp [Action.isCreateContainerRecipeCall]
    · simp at h
  · split at ha
    · simp only [List.mem_singleton] at ha
      subst ha; simp [Action.isCreateContainerRecipeCall]
    · split at ha
      · simp only [List.mem_singleton] at ha
        subst ha; simp [Action.isCreateContainerRecipeCall]
      · split at ha
        · simp only [List.mem_singleton] at ha
          subst ha; simp [Action.isCreateContainerRecipeCall]
        · simp only [List.mem_cons, List.mem_map] at ha
          rcases ha with h | ⟨kv, _, h⟩
          · subst h; simp [Action.isCreateContainerRecipeCall]
          · subst h; simp [Action.isCreateContainerRecipeCall]

/-- C4. The container recipe Create builds exactly one CreateContainerRecipe
request by field-by-field marshalling: each present configuration field is
copied to its request field, the first target_repository element is expanded,
tags are filtered of AWS-internal keys, absent optional fields stay unset, and
a fresh ClientToken is always included. -/
theorem container_recipe_create_request (cfg : ContainerRecipeResourceConfig)
    (d : ResourceData) (env : RecipeEnv) :
    ((resourceAwsImageBuilderContainerRecipeCreate cfg d env).2.2.filter
        Action.isCreateContainerRecipeCall =
      [Action.callCreateContainerRecipe
        (createContainerRecipeInputFromConfig cfg env.clientToken)])
    ∧ (createContainerRecipeInputFromConfig cfg env.clientToken).ClientToken =
        some env.clientToken
    ∧ (createContainerRecipeInputFromConfig cfg env.clientToken).ContainerType =
        cfg.container_type
    ∧ (createContainerRecipeInputFromConfig cfg env.clientToken).Description =
        cfg.description
    ∧ (createContainerRecipeInputFromConfig cfg
        env.clientToken).DockerfileTemplateData =
        cfg.dockerfile_template_data
    ∧ (createContainerRecipeInputFromConfig cfg env.clientToken).Name = cfg.name
    ∧ (createContainerRecipeInputFromConfig cfg env.clientToken).ParentImage =
        cfg.parent_image
    ∧ (createContainerRecipeInputFromConfig cfg env.clientToken).SemanticVersion =
        cfg.semantic_version
    ∧ (createContainerRecipeInputFromConfig cfg env.clientToken).WorkingDirectory =
        cfg.working_directory
    ∧ (createContainerRecipeInputFromConfig cfg env.clientToken).Tags =
        cfg.tags.map ignoreAws
    ∧ (cfg.component = [] →
        (createContainerRecipeInputFromConfig cfg env.clientToken).Components =
          none)
    ∧ (cfg.component ≠ [] →
        (createContainerRecipeInputFromConfig cfg env.clientToken).Components =
          some (expandImageBuilderComponentConfigurations cfg.component))
    ∧ (cfg.target_repository = [] →
        (createContainerRecipeInputFromConfig cfg
          env.clientToken).TargetRepository = none)
    ∧ (∀ (m : TfMap) (rest : List TfMap), cfg.target_repository = m :: rest →
        (createContainerRecipeInputFromConfig cfg
          env.clientToken).TargetRepository =
          expandImageBuilderTargetContainerRepository (some m)) := by
  refine ⟨?_, rfl, rfl, rfl, rfl, rfl, rfl, rfl, rfl, rfl, ?_, ?_, ?_, ?_⟩
  · rcases hresp : env.createContainerRecipeResp with ⟨o, er⟩
    cases er with
    | some e =>
      cases o <;>
        simp [resourceAwsImageBuilderContainerRecipeCreate, hresp,
          Action.isCreateContainerRecipeCall]
    | none =>
      cases o with
      | none =>
        simp [resourceAwsImageBuilderContainerRecipeCreate, hresp,
          Action.isCreateContainerRecipeCall]
      | some output =>
        simp [resourceAwsImageBuilderContainerRecipeCreate, hresp,
          List.filter_cons, Action.isCreateContainerRecipeCall,
          containerRecipeRead_no_create_call]
  · intro hc
    simp [createContainerRecipeInputFromConfig, hc]
  · intro hc
    cases hcc : cfg.component with
    | nil => exact absurd hcc hc
    | cons m rest => simp [createContainerRecipeInputFromConfig, hcc]
  · intro ht
    simp [createContainerRecipeInputFromConfig, ht]
  · intro m rest ht
    simp [createContainerRecipeInputFromConfig, ht]

/-- Witness for C4 at a concrete configuration with a present description and
an absent working directory. -/
theorem container_recipe_create_request_witness :
    ((resourceAwsImageBuilderContainerRecipeCreate
        { component := [[("component_arn", TfVal.str "arn-comp")]],
          container_type := some "DOCKER", description := some "desc",
          dockerfile_template_data := none, name := some "recipe",
          parent_image := some "parent", tags := none,
          semantic_version := some "1.0.0",
          target_repository := [[("repository_name", TfVal.str "repo"),
                                 ("service", TfVal.str "ECR")]],
          working_directory := none }
        dSample recipeEnvBase).2.2.filter Action.isCreateContainerRecipeCall =
      [Action.callCreateContainerRecipe
        (createContainerRecipeInputFromConfig
          { component := [[("component_arn", TfVal.str "arn-comp")]],
            container_type := some "DOCKER", description := some "desc",
            dockerfile_template_data := none, name := some "recipe",
            parent_image := some "parent", tags := none,
            semantic_version := some "1.0.0",
            target_repository := [[("repository_name", TfVal.str "repo"),
                                   ("service", TfVal.str "ECR")]],
            working_directory := none }
          "token-1")])
    ∧ (createContainerRecipeInputFromConfig
        { component := [[("component_arn", TfVal.str "arn-comp")]],
          container_type := some "DOCKER", description := some "desc",
          dockerfile_template_data := none, name := some "recipe",
          parent_image := some "parent", tags := none,
          semantic_version := some "1.0.0",
          target_repository := [[("repository_name", TfVal.str "repo"),
                                 ("service", TfVal.str "ECR")]],
          working_directory := none }
        "token-1").TargetRepository =
      expandImageBuilderTargetContainerRepository
        (some [("repository_name", TfVal.str "repo"),
               ("service", TfVal.str "ECR")]) := by
  have h := container_recipe_create_request
    { component := [[("component_arn", TfVal.str "arn-comp")]],
      container_type := some "DOCKER", description := some "desc",
      dockerfile_template_data := none, name := some "recipe",
      parent_image := some "parent", tags := none,
      semantic_version := some "1.0.0",
      target_repository := [[("repository_name", TfVal.str "repo"),
                             ("service", TfVal.str "ECR")]],
      working_directory := none }
    dSample recipeEnvBase
  exact ⟨h.1, h.2.2.2.2.2.2.2.2.2.2.2.2.2
    [("repository_name", TfVal.str "repo"), ("service", TfVal.str "ECR")]
    [] rfl⟩

/-- A sample GetImage response image whose nested ImageRecipe struct is nil. -/
def imageSample : Image :=
  { Arn := some "arn-img", ContainerRecipe := none,
    DateCreated := some "2021-01-01", DistributionConfiguration := none,
    EnhancedImageMetadataEnabled := some true, ImageRecipe := none,
    ImageTestsConfiguration := none, InfrastructureConfiguration := none,
    Name := some "img", Platform := some "Linux",
    OsVersion := some "Amazon Linux 2", OutputResources := none,
    Tags := [], Version := some "1.0.0" }

/-- Counterexample to C6 as stated: on a successful GetImage response whose
nested ImageRecipe struct is nil, Read returns nil but never sets the schema
attribute image_recipe_arn, so not every schema attribute is set. -/
theorem image_read_skips_nil_image_recipe_arn_cex :
    ((resourceAwsImageBuilderImageRead dSample
        { imageEnvBase with
            getImageResp := (some { Image := some imageSample }, none) }).1 =
      none)
    ∧ ((resourceAwsImageBuilderImageRead dSample
        { imageEnvBase with
            getImageResp := (some { Image := some imageSample }, none) }).2.2.filter
          (fun a => a.setsKey "image_recipe_arn") = [])
    ∧ ((resourceAwsImageBuilderImageRead dSample
        { imageEnvBase with
            getImageResp := (some { Image := some imageSample }, none) }).2.2.filter
          (fun a => a.setsKey "arn") =
        [Action.setAttr "arn" (TfVal.str "arn-img")]) :=
  ⟨rfl, rfl, rfl⟩

set_option maxHeartbeats 1000000 in
/-- C6 (amended). On a successful GetImage response with a non-nil Image, the
image Read returns nil and sets each schema attribute from the corresponding
response field; the four ARN attributes backed by nested structs
(container_recipe_arn, distribution_configuration_arn, image_recipe_arn,
infrastructure_configuration_arn) are set exactly when their nested struct is
non-nil, and image_tests_configuration and output_resources are set to a
one-element flattened list when non-nil and to nil otherwise. -/
theorem image_read_sets_fields (d : ResourceData) (env : ImageEnv)
    (out : GetImageOutput) (image : Image)
    (h1 : env.getImageResp = (some out, none)) (h2 : out.Image = some image) :
    ((resourceAwsImageBuilderImageRead d env).1 = none)
    ∧ ((resourceAwsImageBuilderImageRead d env).2.2 =
        Action.callGetImage { ImageBuildVersionArn := some d.id } ::
          (imageReadPairs image env.ignoreTagsConfig).map
            (fun kv => Action.setAttr kv.1 kv.2))
    ∧ (List.lookup "arn" (imageReadPairs image env.ignoreTagsConfig) =
        some (tfStringValue image.Arn))
    ∧ (List.lookup "container_recipe_arn"
        (imageReadPairs image env.ignoreTagsConfig) =
        image.ContainerRecipe.map (fun v => tfStringValue v.Arn))
    ∧ (List.lookup "distribution_configuration_arn"
        (imageReadPairs image env.ignoreTagsConfig) =
        image.DistributionConfiguration.map (fun v => tfStringValue v.Arn))
    ∧ (List.lookup "image_recipe_arn"
        (imageReadPairs image env.ignoreTagsConfig) =
        image.ImageRecipe.map (fun v => tfStringValue v.Arn))
    ∧ (List.lookup "infrastructure_configuration_arn"
        (imageReadPairs image env.ignoreTagsConfig) =
        image.InfrastructureConfiguration.map (fun v => tfStringValue v.Arn))
    ∧ (List.lookup "date_created" (imageReadPairs image env.ignoreTagsConfig) =
        some (tfStringValue image.DateCreated))
    ∧ (List.lookup "enhanced_image_metadata_enabled"
        (imageReadPairs image env.ignoreTagsConfig) =
        some (tfBoolValue image.EnhancedImageMetadataEnabled))
    ∧ (List.lookup "image_tests_configuration"
        (imageReadPairs image env.ignoreTagsConfig) =
        some (match image.ImageTestsConfiguration with
              | some v =>
                TfVal.list
                  [tfMapValue
                    (flattenImageBuilderImageTestsConfiguration (some v))]
              | none => TfVal.null))
    ∧ (List.lookup "name" (imageReadPairs image env.ignoreTagsConfig) =
        some (tfStringValue image.Name))
    ∧ (List.lookup "platform" (imageReadPairs image env.ignoreTagsConfig) =
        some (tfStringValue image.Platform))
    ∧ (List.lookup "os_version" (imageReadPairs image env.ignoreTagsConfig) =
        some (tfStringValue image.OsVersion))
    ∧ (List.lookup "output_resources"
        (imageReadPairs image env.ignoreTagsConfig) =
        some (match image.OutputResources with
              | some v =>
                TfVal.list
                  [tfMapValue (flattenImageBuilderOutputResources (some v))]
              | none => TfVal.null))
    ∧ (List.lookup "tags" (imageReadPairs image env.ignoreTagsConfig) =
        some (TfVal.map
          ((ignoreConfig env.ignoreTagsConfig (ignoreAws image.Tags)).map
            (fun kv => (kv.1, TfVal.str kv.2)))))
    ∧ (List.lookup "version" (imageReadPairs image env.ignoreTagsConfig) =
        some (tfStringValue image.Version)) := by
  obtain ⟨A, CR, DCr, DC, E, IR, ITC, IC, N, P, OV, ORs, T, V⟩ := image
  refine ⟨?_, ?_, ?_, ?_, ?_, ?_, ?_, ?_, ?_, ?_, ?_, ?_, ?_, ?_, ?_, ?_⟩
  · simp [resourceAwsImageBuilderImageRead, h1, h2, errCodeEquals]
  · simp [resourceAwsImageBuilderImageRead, h1, h2, errCodeEquals]
  all_goals
    cases CR <;> cases DC <;> cases IR <;> cases IC <;>
      simp [imageReadPairs, List.lookup]

/-- Witness for C6 (amended): the sample image with a nil ImageRecipe is read
with a nil result and a nil image_recipe_arn lookup. -/
theorem image_read_sets_fields_witness :
    ((resourceAwsImageBuilderImageRead dSample
        { imageEnvBase with
            getImageResp := (some { Image := some imageSample }, none) }).1 =
      none)
    ∧ (List.lookup "image_recipe_arn" (imageReadPairs imageSample []) =
        imageSample.ImageRecipe.map (fun v => tfStringValue v.Arn)) := by
  have h := image_read_sets_fields dSample
    { imageEnvBase with
        getImageResp := (some { Image := some imageSample }, none) }
    { Image := some imageSample } imageSample rfl rfl
  exact ⟨h.1, h.2.2.2.2.2.1⟩

end AwsProvider
